import Mathlib

/-!
Shallow embedding of the shape-conversion module
(mitsuba-blender, io/importer/shapes.py).

Conventions of the embedding:
* Numbers are exact rationals standing in for Python floats.
* The property bag of a Mitsuba shape is an association list from keys to
  dynamically typed values (MiValue).
* External collaborators (path resolution, the two file-format loaders,
  the embedded-renderer loader, the transform utilities and the bmesh
  primitive generators, the wall clock) are fields of a MiContext record;
  the converters are parametric in them, exactly as the Python module is
  parametric in its imported collaborator modules.
* Side effects (diagnostics, path resolution, file loads) are recorded in
  an explicit event trace returned next to the value; Python exceptions
  (assert failures, tuple-unpack TypeError, list IndexError, loader
  failures) are an Except error value.
-/

inductive LogLevel where
  | INFO
  | WARN
  | ERROR
deriving DecidableEq, Repr

/-- Python exception outcomes that the module can produce. -/
inductive PyErr where
  | assertionError
  | typeError
  | indexError
  | valueError
  | loadError
deriving DecidableEq, Repr

/-- 3D vector (mathutils.Vector with three components). -/
abbrev Vec3 : Type := ℚ × ℚ × ℚ

/-- 4x4 matrix (mathutils.Matrix), row major. -/
abbrev Mat4 : Type := List (List ℚ)

/-- mathutils Matrix.Translation: homogeneous translation matrix. -/
def translationMat (v : Vec3) : Mat4 :=
  [[1, 0, 0, v.1], [0, 1, 0, v.2.1], [0, 0, 1, v.2.2], [0, 0, 0, 1]]

/-- The identity 4x4 matrix. -/
def idMat4 : Mat4 :=
  [[1, 0, 0, 0], [0, 1, 0, 0], [0, 0, 1, 0], [0, 0, 0, 1]]

/-- A dynamically typed value stored in a Mitsuba shape's property bag. -/
inductive MiValue where
  | bool (b : Bool)
  | num (q : ℚ)
  | str (s : String)
  | vec (v : Vec3)
  | mat (m : Mat4)
deriving DecidableEq, Repr

/-- Python truthiness of a property value, as used when a value is placed
in boolean position (mathutils vectors and matrices are truthy). -/
def MiValue.toBool : MiValue → Bool
  | .bool b => b
  | .num q => if q = 0 then false else true
  | .str s => if s = "" then false else true
  | .vec _ => true
  | .mat _ => true

/-- Rendering of a property value inside a Python f-string. -/
def MiValue.fmt : MiValue → String
  | .bool b => if b then "True" else "False"
  | .num q => toString q
  | .str s => s
  | .vec _ => "Vector"
  | .mat _ => "Matrix"

/-- A Blender mesh: name, vertex buffer, polygon buffer (vertex index
lists), and the per-polygon use_smooth flags. -/
structure Mesh where
  name : String
  verts : List Vec3
  faces : List (List ℕ)
  useSmooth : List Bool
deriving DecidableEq, Repr

/-- bpy Mesh.flip_normals: invert the winding of every polygon. -/
def Mesh.flip_normals (m : Mesh) : Mesh :=
  { m with faces := m.faces.map List.reverse }

/-- bpy Mesh.calc_normals: recompute normals from topology.  Normals are
derived data in this model, so this is the identity. -/
def Mesh.calc_normals (m : Mesh) : Mesh := m

/-- bpy Mesh.update: refresh derived data; identity in this model. -/
def Mesh.update (m : Mesh) : Mesh := m

/-- A Mitsuba shape record: the plugin name (kind discriminator), the
shape id, and the heterogeneous property bag. -/
structure MiShape where
  plugin_name : String
  id : String
  props : List (String × MiValue)
deriving DecidableEq, Repr

/-- mi_props.has_property. -/
def MiShape.has_property (s : MiShape) (k : String) : Bool :=
  (s.props.lookup k).isSome

/-- Python dict-style get with default None: the raw optional value. -/
def MiShape.getProp (s : MiShape) (k : String) : Option MiValue :=
  s.props.lookup k

/-- mi_shape.get(key, default) with an explicit default value. -/
def MiShape.getd (s : MiShape) (k : String) (d : MiValue) : MiValue :=
  (s.props.lookup k).getD d

/-- mi_shape.get(key, default) for a numeric property. -/
def MiShape.getNum (s : MiShape) (k : String) (d : ℚ) : ℚ :=
  match s.props.lookup k with
  | some (.num q) => q
  | _ => d

/-- mi_shape.get(key, default) for a vector property. -/
def MiShape.getVec (s : MiShape) (k : String) (d : Vec3) : Vec3 :=
  match s.props.lookup k with
  | some (.vec v) => v
  | _ => d

/-- Store a property on a record, shadowing any previous binding. -/
def MiShape.setProp (s : MiShape) (k : String) (v : MiValue) : MiShape :=
  { s with props := (k, v) :: s.props }

/-- Observable external actions of a conversion: diagnostics, path
resolution, and file loads through the collaborator loaders. -/
inductive Event where
  | log (msg : String) (level : LogLevel)
  | resolvePath (filename : MiValue)
  | loadPlyFile (abs_path : String) (name : String)
  | loadObjFile (abs_path : String)
  | loadSerializedFile (plugin : String) (abs_path : String) (shape_index : Option MiValue)
deriving DecidableEq, Repr

/-- Parameters exposed by traversing an embedded-renderer shape instance
(mitsuba traverse): counts and flat vertex/face arrays. -/
structure SerParams where
  vertex_count : ℕ
  face_count : ℕ
  vertex_positions : List ℚ
  faces : List ℕ
deriving DecidableEq, Repr

/-- The conversion context: the mi_context collaborator together with the
imported collaborator modules (bl_transform_utils, bl_import_ply,
bl_import_obj, bmesh.ops, mitsuba) and the wall clock. -/
structure MiContext where
  resolve_scene_relative_path : MiValue → String
  mi_space_to_bl_space_mat : Mat4 → Mat4
  mi_space_to_bl_space_vec : Vec3 → Vec3
  mi_transform_to_bl_transform : Option MiValue → Mat4
  load_ply_mesh : String → String → Option Mesh
  load_obj : String → List Mesh
  load_serialized : String → String → Option MiValue → Option SerParams
  create_uvsphere : ℕ → ℕ → ℚ → Mesh
  create_circle : Bool → Bool → ℕ → ℚ → Mesh
  create_grid : ℕ → ℕ → ℚ → Mesh
  time : ℕ → ℚ

/-- Result of one converter call: a Python exception, or the returned
value (None, or a (mesh, world_matrix) pair). -/
abbrev ConvResult : Type := Except PyErr (Option (Mesh × Mat4))

/-- Extract the mesh from a successful conversion result. -/
def resultMesh (r : ConvResult × List Event) : Option Mesh :=
  match r.1 with
  | Except.ok (some p) => some p.1
  | _ => none

/-- Extract the world matrix from a successful conversion result. -/
def resultTransform (r : ConvResult × List Event) : Option Mat4 :=
  match r.1 with
  | Except.ok (some p) => some p.2
  | _ => none

/-- Model of the Python format specifier .2f applied to a duration. -/
def fmt2 (q : ℚ) : String :=
  let c : ℤ := round (q * 100)
  let sgn := if c < 0 then "-" else ""
  let a := c.natAbs
  sgn ++ toString (a / 100) ++ "." ++ (if a % 100 < 10 then "0" else "") ++ toString (a % 100)

/-- Reshape a flat rational array into consecutive coordinate triples
(numpy reshape to an n x 3 array). -/
def chunk3Q : List ℚ → List Vec3
  | a :: b :: c :: rest => (a, b, c) :: chunk3Q rest
  | _ => []

/-- Reshape a flat index array into consecutive index triples. -/
def chunk3N : List ℕ → List (List ℕ)
  | a :: b :: c :: rest => [a, b, c] :: chunk3N rest
  | _ => []

/-- Modelled from the spec: bmesh.ops.create_cube is a host-application
collaborator whose code is not part of this repository.  Per the spec it
produces a unit cube scaled to edge length size (size 2.0 spans -1..1 in
each axis), with 8 vertices and 6 quadrilateral faces, flat shaded. -/
def create_cube (size : ℚ) : Mesh :=
  let h := size / 2
  { name := "",
    verts := [(-h, -h, -h), (-h, -h, h), (-h, h, -h), (-h, h, h),
              (h, -h, -h), (h, -h, h), (h, h, -h), (h, h, h)],
    faces := [[0, 1, 3, 2], [2, 3, 7, 6], [6, 7, 5, 4], [4, 5, 1, 0], [2, 6, 4, 0], [7, 3, 1, 5]],
    useSmooth := List.replicate 6 false }

/-- The utility _set_bl_mesh_shading: select flat or smooth shading for
every polygon (recomputing normals in the smooth case), then optionally
flip every normal.  The Python defaults are flat_shading=True,
flip_normals=False; call sites here always pass both arguments. -/
def _set_bl_mesh_shading (bl_mesh : Mesh) (flat_shading : Bool) (flip_normals : Bool) : Mesh :=
  let m1 :=
    if flat_shading then
      { bl_mesh with useSmooth := List.replicate bl_mesh.faces.length false }
    else
      { bl_mesh.calc_normals with useSmooth := List.replicate bl_mesh.faces.length true }
  let m2 := if flip_normals then Mesh.flip_normals m1 else m1
  m2.update

/-- The ERROR message of the PLY converter on a failed load. -/
def plyErrorMsg (filename : MiValue) : String :=
  "Cannot load PLY mesh file \"" ++ filename.fmt ++ "\"."

/-- The WARN message of the OBJ converter on a multi-mesh file. -/
def objWarnMsg : String :=
  "OBJ file containing more than one mesh. Only the first one will be loaded."

/-- The INFO message of the OBJ converter on success. -/
def objInfoMsg (id : String) (dur : String) : String :=
  "Loaded OBJ mesh \"" ++ id ++ "\". Took " ++ dur ++ "s."

/-- The INFO message of the serialized converter on success. -/
def serInfoMsg (id : String) (dur : String) : String :=
  "Loaded serialized mesh \"" ++ id ++ "\". Took " ++ dur ++ "s."

/-- The ERROR message of the dispatcher on an unsupported kind. -/
def unsupportedMsg (shape_type : String) : String :=
  "Mitsuba Shape type \"" ++ shape_type ++ "\" not supported."

/-- mi_ply_to_bl_shape: assert the filename property, resolve the path,
load through the PLY loader collaborator; on a failed load log ERROR and
return None, otherwise apply shading from face_normals (default False)
and return the mesh with the converted to_world transform. -/
def mi_ply_to_bl_shape (ctx : MiContext) (s : MiShape) : ConvResult × List Event :=
  match s.getProp "filename" with
  | none => (Except.error PyErr.assertionError, [])
  | some filename =>
    let abs_path := ctx.resolve_scene_relative_path filename
    match ctx.load_ply_mesh abs_path s.id with
    | none =>
      (Except.ok none,
       [Event.resolvePath filename, Event.loadPlyFile abs_path s.id,
        Event.log (plyErrorMsg filename) LogLevel.ERROR])
    | some bl_mesh =>
      let bl_mesh := _set_bl_mesh_shading bl_mesh ((s.getd "face_normals" (MiValue.bool false)).toBool) false
      let world_matrix := ctx.mi_transform_to_bl_transform (s.getProp "to_world")
      (Except.ok (some (bl_mesh, ctx.mi_space_to_bl_space_mat world_matrix)),
       [Event.resolvePath filename, Event.loadPlyFile abs_path s.id])

/-- mi_obj_to_bl_shape: assert the filename property, resolve the path,
load through the OBJ loader collaborator; warn when the file holds more
than one mesh and keep entry zero (an empty list raises IndexError),
rename the mesh to the shape id, apply shading from face_normals
(default False), log the load duration at INFO, and return the mesh with
the converted to_world transform. -/
def mi_obj_to_bl_shape (ctx : MiContext) (s : MiShape) : ConvResult × List Event :=
  let start_time := ctx.time 0
  match s.getProp "filename" with
  | none => (Except.error PyErr.assertionError, [])
  | some filename =>
    let abs_path := ctx.resolve_scene_relative_path filename
    let bl_meshes := ctx.load_obj abs_path
    let warnEvs :=
      if bl_meshes.length > 1 then [Event.log objWarnMsg LogLevel.WARN] else []
    match bl_meshes with
    | [] =>
      (Except.error PyErr.indexError,
       [Event.resolvePath filename, Event.loadObjFile abs_path] ++ warnEvs)
    | m0 :: _ =>
      let bl_mesh := { m0 with name := s.id }
      let bl_mesh := _set_bl_mesh_shading bl_mesh ((s.getd "face_normals" (MiValue.bool false)).toBool) false
      let world_matrix := ctx.mi_transform_to_bl_transform (s.getProp "to_world")
      let end_time := ctx.time 1
      (Except.ok (some (bl_mesh, ctx.mi_space_to_bl_space_mat world_matrix)),
       [Event.resolvePath filename, Event.loadObjFile abs_path] ++ warnEvs
         ++ [Event.log (objInfoMsg s.id (fmt2 (end_time - start_time))) LogLevel.INFO])

/-- mi_sphere_to_bl_shape: if to_world is present use it (converted) as
the transform and a unit radius; otherwise place by a pure translation to
the converted center (default origin) and pass radius (default 1.0) to
the sphere generator so the geometry itself is scaled.  Always smooth
shaded, with optional normal flip from flip_normals. -/
def mi_sphere_to_bl_shape (ctx : MiContext) (s : MiShape) : ConvResult × List Event :=
  let wr :=
    if s.has_property "to_world" then
      (ctx.mi_space_to_bl_space_mat (ctx.mi_transform_to_bl_transform (s.getProp "to_world")), (1 : ℚ))
    else
      (translationMat (ctx.mi_space_to_bl_space_vec (s.getVec "center" (0, 0, 0))),
       s.getNum "radius" 1)
  let bl_mesh := { ctx.create_uvsphere 32 16 wr.2 with name := s.id }
  let bl_mesh := _set_bl_mesh_shading bl_mesh false ((s.getd "flip_normals" (MiValue.bool false)).toBool)
  (Except.ok (some (bl_mesh, wr.1)), [])

/-- mi_disk_to_bl_shape: generate a capped 32-segment unit circle, flat
shaded with optional flip, with the converted to_world transform. -/
def mi_disk_to_bl_shape (ctx : MiContext) (s : MiShape) : ConvResult × List Event :=
  let bl_mesh := { ctx.create_circle true true 32 1 with name := s.id }
  let bl_mesh := _set_bl_mesh_shading bl_mesh true ((s.getd "flip_normals" (MiValue.bool false)).toBool)
  let world_matrix := ctx.mi_transform_to_bl_transform (s.getProp "to_world")
  (Except.ok (some (bl_mesh, ctx.mi_space_to_bl_space_mat world_matrix)), [])

/-- mi_rectangle_to_bl_shape: generate a single-segment unit grid, flat
shaded with optional flip, with the converted to_world transform. -/
def mi_rectangle_to_bl_shape (ctx : MiContext) (s : MiShape) : ConvResult × List Event :=
  let bl_mesh := { ctx.create_grid 1 1 1 with name := s.id }
  let bl_mesh := _set_bl_mesh_shading bl_mesh true ((s.getd "flip_normals" (MiValue.bool false)).toBool)
  let world_matrix := ctx.mi_transform_to_bl_transform (s.getProp "to_world")
  (Except.ok (some (bl_mesh, ctx.mi_space_to_bl_space_mat world_matrix)), [])

/-- mi_cube_to_bl_shape: generate a cube of size 2.0, flat shaded with
optional flip, with the converted to_world transform. -/
def mi_cube_to_bl_shape (ctx : MiContext) (s : MiShape) : ConvResult × List Event :=
  let bl_mesh := { create_cube 2 with name := s.id }
  let bl_mesh := _set_bl_mesh_shading bl_mesh true ((s.getd "flip_normals" (MiValue.bool false)).toBool)
  let world_matrix := ctx.mi_transform_to_bl_transform (s.getProp "to_world")
  (Except.ok (some (bl_mesh, ctx.mi_space_to_bl_space_mat world_matrix)), [])

/-- mi_serialized_to_bl_shape: assert the filename property, resolve the
path, load through an embedded renderer instance (plugin name, absolute
path, shape_index), reshape the flat arrays into vertex and face triples
(a length mismatch raises), build the mesh named by the shape id,
recompute normals, log the load duration at INFO, and return the mesh
with the to_world transform NOT passed through the space conversion. -/
def mi_serialized_to_bl_shape (ctx : MiContext) (s : MiShape) : ConvResult × List Event :=
  let start_time := ctx.time 0
  match s.getProp "filename" with
  | none => (Except.error PyErr.assertionError, [])
  | some filename =>
    let abs_path := ctx.resolve_scene_relative_path filename
    let evs := [Event.resolvePath filename,
                Event.loadSerializedFile s.plugin_name abs_path (s.getProp "shape_index")]
    match ctx.load_serialized s.plugin_name abs_path (s.getProp "shape_index") with
    | none => (Except.error PyErr.loadError, evs)
    | some p =>
      if p.vertex_positions.length = 3 * p.vertex_count ∧ p.faces.length = 3 * p.face_count then
        let bl_mesh : Mesh :=
          { name := s.id,
            verts := chunk3Q p.vertex_positions,
            faces := chunk3N p.faces,
            useSmooth := List.replicate (chunk3N p.faces).length false }
        let bl_mesh := bl_mesh.calc_normals
        let end_time := ctx.time 1
        let world_matrix := ctx.mi_transform_to_bl_transform (s.getProp "to_world")
        (Except.ok (some (bl_mesh, world_matrix)),
         evs ++ [Event.log (serInfoMsg s.id (fmt2 (end_time - start_time))) LogLevel.INFO])
      else
        (Except.error PyErr.valueError, evs)

/-- The static dispatch table _shape_converters. -/
def _shape_converters : List (String × (MiContext → MiShape → ConvResult × List Event)) :=
  [("ply", mi_ply_to_bl_shape),
   ("obj", mi_obj_to_bl_shape),
   ("sphere", mi_sphere_to_bl_shape),
   ("disk", mi_disk_to_bl_shape),
   ("rectangle", mi_rectangle_to_bl_shape),
   ("cube", mi_cube_to_bl_shape),
   ("serialized", mi_serialized_to_bl_shape)]

/-- The seven supported kind strings, in table order. -/
def _supported_shape_types : List String :=
  ["ply", "obj", "sphere", "disk", "rectangle", "cube", "serialized"]

/-- mi_shape_to_bl_shape: look the plugin name up in the dispatch table;
on a miss log ERROR and return None.  Otherwise call the converter and
unpack its result into (bl_mesh, world_matrix): when a converter returns
None this tuple unpacking raises a TypeError, which this model records as
the typeError outcome. -/
def mi_shape_to_bl_shape (ctx : MiContext) (s : MiShape) : ConvResult × List Event :=
  let shape_type := s.plugin_name
  match _shape_converters.lookup shape_type with
  | none =>
    (Except.ok none, [Event.log (unsupportedMsg shape_type) LogLevel.ERROR])
  | some conv =>
    match conv ctx s with
    | (Except.error e, evs) => (Except.error e, evs)
    | (Except.ok none, evs) => (Except.error PyErr.typeError, evs)
    | (Except.ok (some r), evs) => (Except.ok (some r), evs)

/-!
Concrete fixtures used by witnesses and counterexamples.
-/

/-- An empty placeholder mesh for unused generator collaborators. -/
def emptyMesh : Mesh := { name := "", verts := [], faces := [], useSmooth := [] }

/-- A one-triangle mesh returned by the loader collaborators. -/
def mesh1 : Mesh := { name := "m1", verts := [(0, 0, 0)], faces := [[0, 0, 0]], useSmooth := [false] }

/-- A second one-triangle mesh for multi-mesh OBJ files. -/
def mesh2 : Mesh := { name := "m2", verts := [(0, 0, 0)], faces := [[0, 0, 0]], useSmooth := [false] }

/-- A minimal consistent parameter set for the serialized loader. -/
def serParams1 : SerParams :=
  { vertex_count := 1, face_count := 1, vertex_positions := [0, 0, 0], faces := [0, 0, 0] }

/-- A context whose loaders all fail (PLY loader returns no mesh). -/
def ctxFail : MiContext :=
  { resolve_scene_relative_path := fun _ => "abs",
    mi_space_to_bl_space_mat := fun m => m,
    mi_space_to_bl_space_vec := fun v => v,
    mi_transform_to_bl_transform := fun _ => idMat4,
    load_ply_mesh := fun _ _ => none,
    load_obj := fun _ => [],
    load_serialized := fun _ _ _ => none,
    create_uvsphere := fun _ _ r => { name := "", verts := [(r, 0, 0)], faces := [[0, 0, 0]], useSmooth := [false] },
    create_circle := fun _ _ _ _ => emptyMesh,
    create_grid := fun _ _ _ => emptyMesh,
    time := fun _ => 0 }

/-- A context whose loaders all succeed with single meshes. -/
def ctxOk : MiContext :=
  { ctxFail with
    load_ply_mesh := fun _ _ => some mesh1,
    load_obj := fun _ => [mesh1],
    load_serialized := fun _ _ _ => some serParams1 }

/-- A context whose OBJ loader returns two meshes. -/
def ctxObj2 : MiContext :=
  { ctxFail with load_obj := fun _ => [mesh1, mesh2] }

/-- A shape of an unsupported kind. -/
def shapeCyl : MiShape := { plugin_name := "cylinder", id := "c", props := [] }

/-- A PLY shape carrying only a filename. -/
def shapePly : MiShape := { plugin_name := "ply", id := "m", props := [("filename", MiValue.str "mesh.ply")] }

/-- A shape with an empty property bag. -/
def shapeBare : MiShape := { plugin_name := "cube", id := "c", props := [] }

/-- A file-backed shape missing its filename property. -/
def shapeNoFile : MiShape := { plugin_name := "obj", id := "o", props := [] }

/-!
Claim theorems.
-/

/-- C7: applying the Shading Normalizer with flip_normals true equals
applying it with flip_normals false followed by one normal flip (the flip
comes after the shading-mode step, for either shading mode), and flipping
twice restores the original winding. -/
theorem shading_flip_round_trip (m : Mesh) (fs : Bool) :
    _set_bl_mesh_shading m fs true = Mesh.flip_normals (_set_bl_mesh_shading m fs false)
    ∧ Mesh.flip_normals (Mesh.flip_normals m) = m := by
  constructor
  · cases fs <;>
      simp [_set_bl_mesh_shading, Mesh.flip_normals, Mesh.update, Mesh.calc_normals]
  · simp [Mesh.flip_normals, List.map_map, Function.comp, List.reverse_reverse]

/-- C1: a shape whose kind is outside the seven supported kinds makes the
dispatcher return the failure value (None) and emit exactly one ERROR
diagnostic naming the kind, with no other observable action. -/
theorem mi_shape_to_bl_shape_unsupported_kind (ctx : MiContext) (s : MiShape)
    (h : s.plugin_name ∉ _supported_shape_types) :
    mi_shape_to_bl_shape ctx s =
      (Except.ok none, [Event.log (unsupportedMsg s.plugin_name) LogLevel.ERROR]) := by
  have hl : _shape_converters.lookup s.plugin_name = none := by
    simp [_supported_shape_types] at h
    obtain ⟨h1, h2, h3, h4, h5, h6, h7⟩ := h
    simp [_shape_converters, List.lookup, beq_eq_false_iff_ne.mpr h1,
      beq_eq_false_iff_ne.mpr h2, beq_eq_false_iff_ne.mpr h3, beq_eq_false_iff_ne.mpr h4,
      beq_eq_false_iff_ne.mpr h5, beq_eq_false_iff_ne.mpr h6, beq_eq_false_iff_ne.mpr h7]
  simp [mi_shape_to_bl_shape, hl]

/-- C1 witness: a cylinder shape is rejected with a single ERROR. -/
theorem mi_shape_to_bl_shape_unsupported_kind_witness :
    mi_shape_to_bl_shape ctxFail shapeCyl =
      (Except.ok none, [Event.log (unsupportedMsg "cylinder") LogLevel.ERROR]) :=
  mi_shape_to_bl_shape_unsupported_kind ctxFail shapeCyl (by decide)

/-- C8: on a shape without the filename property, each of the three
filename-bearing converters fails with the assertion error and the event
trace is empty: no path resolution and no file-system access happens. -/
theorem missing_filename_asserts_before_io (ctx : MiContext) (s : MiShape)
    (h : s.has_property "filename" = false) :
    mi_ply_to_bl_shape ctx s = (Except.error PyErr.assertionError, [])
    ∧ mi_obj_to_bl_shape ctx s = (Except.error PyErr.assertionError, [])
    ∧ mi_serialized_to_bl_shape ctx s = (Except.error PyErr.assertionError, []) := by
  have h0 : s.getProp "filename" = none := by
    cases hx : s.props.lookup "filename" with
    | none => exact hx
    | some v => rw [MiShape.has_property, hx] at h; simp at h
  refine ⟨?_, ?_, ?_⟩ <;>
    simp [mi_ply_to_bl_shape, mi_obj_to_bl_shape, mi_serialized_to_bl_shape, h0]

/-- C8 witness: an obj shape without filename asserts with no events. -/
theorem missing_filename_asserts_before_io_witness :
    mi_ply_to_bl_shape ctxFail shapeNoFile = (Except.error PyErr.assertionError, []) :=
  (missing_filename_asserts_before_io ctxFail shapeNoFile rfl).1

/-- C10: the two file-backed converters never consult the flip_normals
property (storing any value for it leaves their full result unchanged),
and the Shading Normalizer invoked with the flip disabled preserves every
face winding. -/
theorem file_loaders_never_flip_normals (ctx : MiContext) (s : MiShape) (v : MiValue) :
    mi_ply_to_bl_shape ctx (s.setProp "flip_normals" v) = mi_ply_to_bl_shape ctx s
    ∧ mi_obj_to_bl_shape ctx (s.setProp "flip_normals" v) = mi_obj_to_bl_shape ctx s
    ∧ ∀ (m : Mesh) (fs : Bool), (_set_bl_mesh_shading m fs false).faces = m.faces := by
  refine ⟨rfl, rfl, ?_⟩
  intro m fs
  cases fs <;> simp [_set_bl_mesh_shading, Mesh.update, Mesh.calc_normals]

/-- C2: on a PLY shape whose file fails to load, the converter logs one
ERROR and returns None, but the dispatcher then unpacks that None into
(bl_mesh, world_matrix) and raises a TypeError: the overall conversion
surfaces a Python exception, not the structured failure value. -/
theorem ply_load_failure_raises_in_dispatch (ctx : MiContext) (s : MiShape) (v : MiValue)
    (hk : s.plugin_name = "ply")
    (hf : s.getProp "filename" = some v)
    (hload : ctx.load_ply_mesh (ctx.resolve_scene_relative_path v) s.id = none) :
    mi_shape_to_bl_shape ctx s =
      (Except.error PyErr.typeError,
       [Event.resolvePath v,
        Event.loadPlyFile (ctx.resolve_scene_relative_path v) s.id,
        Event.log (plyErrorMsg v) LogLevel.ERROR]) := by
  have hl : _shape_converters.lookup s.plugin_name = some mi_ply_to_bl_shape := by
    rw [hk]; rfl
  have hply : mi_ply_to_bl_shape ctx s =
      (Except.ok none,
       [Event.resolvePath v,
        Event.loadPlyFile (ctx.resolve_scene_relative_path v) s.id,
        Event.log (plyErrorMsg v) LogLevel.ERROR]) := by
    simp [mi_ply_to_bl_shape, hf, hload]
  simp [mi_shape_to_bl_shape, hl, hply]

/-- C2 witness: the concrete failing input, evaluated end to end. -/
theorem ply_load_failure_raises_in_dispatch_witness :
    mi_shape_to_bl_shape ctxFail shapePly =
      (Except.error PyErr.typeError,
       [Event.resolvePath (MiValue.str "mesh.ply"),
        Event.loadPlyFile "abs" "m",
        Event.log (plyErrorMsg (MiValue.str "mesh.ply")) LogLevel.ERROR]) :=
  ply_load_failure_raises_in_dispatch ctxFail shapePly (MiValue.str "mesh.ply") rfl rfl rfl

/-- C3 counterexample: a PLY shape without the face_normals property
yields a mesh whose single polygon is marked smooth, not flat — the
default shading of the file loaders is smooth shading. -/
theorem ply_default_shading_not_flat :
    (resultMesh (mi_ply_to_bl_shape ctxOk shapePly)).map Mesh.useSmooth = some [true]
    ∧ (resultMesh (mi_ply_to_bl_shape ctxOk shapePly)).map Mesh.useSmooth ≠ some [false] := by
  constructor <;> decide

/-- C3 amended: without face_normals both file loaders mark every face
smooth (flat_shading false is the default); when face_normals is present
its boolean value selects flat (true) versus smooth (false) shading. -/
theorem file_loader_face_normals_policy (ctx : MiContext) (s : MiShape) (v : MiValue)
    (m : Mesh) (rest : List Mesh)
    (hf : s.getProp "filename" = some v)
    (hply : ctx.load_ply_mesh (ctx.resolve_scene_relative_path v) s.id = some m)
    (hobj : ctx.load_obj (ctx.resolve_scene_relative_path v) = m :: rest)
    (hfn : s.getProp "face_normals" = none) :
    ((resultMesh (mi_ply_to_bl_shape ctx s)).map Mesh.useSmooth
        = some (List.replicate m.faces.length true))
    ∧ ((resultMesh (mi_obj_to_bl_shape ctx s)).map Mesh.useSmooth
        = some (List.replicate m.faces.length true))
    ∧ ∀ b : Bool,
        ((resultMesh (mi_ply_to_bl_shape ctx (s.setProp "face_normals" (MiValue.bool b)))).map
            Mesh.useSmooth = some (List.replicate m.faces.length (!b)))
        ∧ ((resultMesh (mi_obj_to_bl_shape ctx (s.setProp "face_normals" (MiValue.bool b)))).map
            Mesh.useSmooth = some (List.replicate m.faces.length (!b))) := by
  have hfn' : s.getd "face_normals" (MiValue.bool false) = MiValue.bool false := by
    rw [MiShape.getd, show s.props.lookup "face_normals" = none from hfn]; rfl
  refine ⟨?_, ?_, ?_⟩
  · simp [mi_ply_to_bl_shape, hf, hply, hfn', _set_bl_mesh_shading, MiValue.toBool,
      Mesh.update, Mesh.calc_normals, resultMesh]
  · simp [mi_obj_to_bl_shape, hf, hobj, hfn', _set_bl_mesh_shading, MiValue.toBool,
      Mesh.update, Mesh.calc_normals, resultMesh]
  · intro b
    have hf2 : (s.setProp "face_normals" (MiValue.bool b)).getProp "filename"
        = some v := hf
    have hfn2 : (s.setProp "face_normals" (MiValue.bool b)).getd "face_normals"
        (MiValue.bool false) = MiValue.bool b := rfl
    have hid : (s.setProp "face_normals" (MiValue.bool b)).id = s.id := rfl
    constructor
    · cases b <;>
        simp [mi_ply_to_bl_shape, hf2, hfn2, hid, hply, _set_bl_mesh_shading, MiValue.toBool,
          Mesh.update, Mesh.calc_normals, resultMesh]
    · cases b <;>
        simp [mi_obj_to_bl_shape, hf2, hfn2, hid, hobj, _set_bl_mesh_shading, MiValue.toBool,
          Mesh.update, Mesh.calc_normals, resultMesh]

/-- C3 witness: concrete loaders and a shape without face_normals. -/
theorem file_loader_face_normals_policy_witness :
    (resultMesh (mi_ply_to_bl_shape ctxOk shapePly)).map Mesh.useSmooth
      = some (List.replicate mesh1.faces.length true) :=
  (file_loader_face_normals_policy ctxOk shapePly (MiValue.str "mesh.ply") mesh1 []
    rfl rfl rfl rfl).1

/-- C4: the sphere converter has two placement modes.  With to_world
present the transform is the to_world matrix converted to Blender space
and the generator is called with unit radius; the radius property is
ignored (storing any radius leaves the result unchanged).  Without
to_world the transform is a pure translation to the converted center
(default origin) and the radius (default 1.0) is passed to the geometry
generator, not encoded in the transform. -/
theorem sphere_placement_modes (ctx : MiContext) (s : MiShape) :
    mi_sphere_to_bl_shape ctx s =
      (Except.ok (some
         (_set_bl_mesh_shading
            { ctx.create_uvsphere 32 16
                (if s.has_property "to_world" then 1 else s.getNum "radius" 1) with
              name := s.id }
            false ((s.getd "flip_normals" (MiValue.bool false)).toBool),
          if s.has_property "to_world" then
            ctx.mi_space_to_bl_space_mat (ctx.mi_transform_to_bl_transform (s.getProp "to_world"))
          else
            translationMat (ctx.mi_space_to_bl_space_vec (s.getVec "center" (0, 0, 0))))),
       [])
    ∧ ∀ (M : Mat4) (q : ℚ),
        mi_sphere_to_bl_shape ctx
            ((s.setProp "to_world" (MiValue.mat M)).setProp "radius" (MiValue.num q))
          = mi_sphere_to_bl_shape ctx (s.setProp "to_world" (MiValue.mat M)) := by
  constructor
  · cases h : s.has_property "to_world" <;> simp [mi_sphere_to_bl_shape, h]
  · intro M q
    rfl

/-- C5: the serialized converter returns the transform computed from
to_world WITHOUT the Mitsuba-to-Blender space conversion and names its
mesh by the shape id, while the disk, rectangle, cube, ply, obj and
sphere converters all pass their transform through that conversion. -/
theorem serialized_transform_skips_space_conversion (ctx : MiContext) (s : MiShape)
    (v : MiValue) (p : SerParams) (m : Mesh) (rest : List Mesh)
    (hf : s.getProp "filename" = some v)
    (hser : ctx.load_serialized s.plugin_name (ctx.resolve_scene_relative_path v)
        (s.getProp "shape_index") = some p)
    (hv : p.vertex_positions.length = 3 * p.vertex_count)
    (hfc : p.faces.length = 3 * p.face_count)
    (hply : ctx.load_ply_mesh (ctx.resolve_scene_relative_path v) s.id = some m)
    (hobj : ctx.load_obj (ctx.resolve_scene_relative_path v) = m :: rest) :
    resultTransform (mi_serialized_to_bl_shape ctx s)
        = some (ctx.mi_transform_to_bl_transform (s.getProp "to_world"))
    ∧ (resultMesh (mi_serialized_to_bl_shape ctx s)).map Mesh.name = some s.id
    ∧ resultTransform (mi_disk_to_bl_shape ctx s)
        = some (ctx.mi_space_to_bl_space_mat (ctx.mi_transform_to_bl_transform (s.getProp "to_world")))
    ∧ resultTransform (mi_rectangle_to_bl_shape ctx s)
        = some (ctx.mi_space_to_bl_space_mat (ctx.mi_transform_to_bl_transform (s.getProp "to_world")))
    ∧ resultTransform (mi_cube_to_bl_shape ctx s)
        = some (ctx.mi_space_to_bl_space_mat (ctx.mi_transform_to_bl_transform (s.getProp "to_world")))
    ∧ resultTransform (mi_ply_to_bl_shape ctx s)
        = some (ctx.mi_space_to_bl_space_mat (ctx.mi_transform_to_bl_transform (s.getProp "to_world")))
    ∧ resultTransform (mi_obj_to_bl_shape ctx s)
        = some (ctx.mi_space_to_bl_space_mat (ctx.mi_transform_to_bl_transform (s.getProp "to_world")))
    ∧ ∀ M : Mat4,
        resultTransform (mi_sphere_to_bl_shape ctx (s.setProp "to_world" (MiValue.mat M)))
          = some (ctx.mi_space_to_bl_space_mat
              (ctx.mi_transform_to_bl_transform (some (MiValue.mat M)))) := by
  refine ⟨?_, ?_, ?_, ?_, ?_, ?_, ?_, ?_⟩
  · simp [mi_serialized_to_bl_shape, hf, hser, hv, hfc, resultTransform]
  · simp [mi_serialized_to_bl_shape, hf, hser, hv, hfc, resultMesh, Mesh.calc_normals]
  · simp [mi_disk_to_bl_shape, resultTransform]
  · simp [mi_rectangle_to_bl_shape, resultTransform]
  · simp [mi_cube_to_bl_shape, resultTransform]
  · simp [mi_ply_to_bl_shape, hf, hply, resultTransform]
  · simp [mi_obj_to_bl_shape, hf, hobj, resultTransform]
  · intro M
    rfl

/-- C5 witness: concrete context where all loaders succeed. -/
theorem serialized_transform_skips_space_conversion_witness :
    resultTransform (mi_serialized_to_bl_shape ctxOk shapePly)
      = some (ctxOk.mi_transform_to_bl_transform (shapePly.getProp "to_world")) :=
  (serialized_transform_skips_space_conversion ctxOk shapePly (MiValue.str "mesh.ply")
    serParams1 mesh1 [] rfl rfl rfl rfl rfl rfl).1

/-- C6: on a successfully loaded OBJ file the converter uses only the
first mesh, renames it to the shape id, emits exactly one WARN when the
file holds more than one mesh and none otherwise, and emits exactly one
INFO diagnostic carrying the load duration formatted to two decimals. -/
theorem obj_loader_first_mesh_and_diagnostics (ctx : MiContext) (s : MiShape) (v : MiValue)
    (m0 : Mesh) (rest : List Mesh)
    (hf : s.getProp "filename" = some v)
    (hobj : ctx.load_obj (ctx.resolve_scene_relative_path v) = m0 :: rest) :
    mi_obj_to_bl_shape ctx s =
      (Except.ok (some
         (_set_bl_mesh_shading { m0 with name := s.id }
            ((s.getd "face_normals" (MiValue.bool false)).toBool) false,
          ctx.mi_space_to_bl_space_mat (ctx.mi_transform_to_bl_transform (s.getProp "to_world")))),
       [Event.resolvePath v, Event.loadObjFile (ctx.resolve_scene_relative_path v)]
         ++ (if rest.isEmpty then [] else [Event.log objWarnMsg LogLevel.WARN])
         ++ [Event.log (objInfoMsg s.id (fmt2 (ctx.time 1 - ctx.time 0))) LogLevel.INFO]) := by
  cases rest with
  | nil => simp [mi_obj_to_bl_shape, hf, hobj]
  | cons r rs =>
    have hgt : 1 < (m0 :: r :: rs).length := by simp
    simp [mi_obj_to_bl_shape, hf, hobj, hgt]

/-- C6 witness: a two-mesh OBJ file at a concrete context. -/
theorem obj_loader_first_mesh_and_diagnostics_witness :
    mi_obj_to_bl_shape ctxObj2 shapePly =
      (Except.ok (some
         (_set_bl_mesh_shading { mesh1 with name := "m" }
            ((shapePly.getd "face_normals" (MiValue.bool false)).toBool) false,
          ctxObj2.mi_space_to_bl_space_mat
            (ctxObj2.mi_transform_to_bl_transform (shapePly.getProp "to_world")))),
       [Event.resolvePath (MiValue.str "mesh.ply"), Event.loadObjFile "abs"]
         ++ (if ([mesh2] : List Mesh).isEmpty then [] else [Event.log objWarnMsg LogLevel.WARN])
         ++ [Event.log (objInfoMsg "m" (fmt2 (ctxObj2.time 1 - ctxObj2.time 0))) LogLevel.INFO]) :=
  obj_loader_first_mesh_and_diagnostics ctxObj2 shapePly (MiValue.str "mesh.ply") mesh1 [mesh2]
    rfl rfl

/-- C9: with default properties the cube converter returns the generated
size-2.0 cube renamed to the shape id with the converted transform, and
that cube has exactly 8 vertices, 6 quadrilateral faces, every
coordinate at -1 or 1, and attains both ends of the -1..1 span. -/
theorem cube_default_geometry (ctx : MiContext) (s : MiShape)
    (h : s.getProp "flip_normals" = none) :
    mi_cube_to_bl_shape ctx s =
      (Except.ok (some
         ({ create_cube 2 with name := s.id },
          ctx.mi_space_to_bl_space_mat (ctx.mi_transform_to_bl_transform (s.getProp "to_world")))),
       [])
    ∧ (create_cube 2).verts.length = 8
    ∧ (create_cube 2).faces.length = 6
    ∧ (∀ f ∈ (create_cube 2).faces, f.length = 4)
    ∧ (∀ p ∈ (create_cube 2).verts,
        (p.1 = -1 ∨ p.1 = 1) ∧ (p.2.1 = -1 ∨ p.2.1 = 1) ∧ (p.2.2 = -1 ∨ p.2.2 = 1))
    ∧ ((-1, -1, -1) : Vec3) ∈ (create_cube 2).verts
    ∧ ((1, 1, 1) : Vec3) ∈ (create_cube 2).verts := by
  have h' : s.getd "flip_normals" (MiValue.bool false) = MiValue.bool false := by
    rw [MiShape.getd, show s.props.lookup "flip_normals" = none from h]; rfl
  have hv : (create_cube 2).verts =
      [(-1, -1, -1), (-1, -1, 1), (-1, 1, -1), (-1, 1, 1),
       (1, -1, -1), (1, -1, 1), (1, 1, -1), (1, 1, 1)] := by
    norm_num [create_cube]
  refine ⟨?_, by decide, by decide, by decide, ?_, ?_, ?_⟩
  · simp [mi_cube_to_bl_shape, h', _set_bl_mesh_shading, MiValue.toBool, Mesh.update,
      create_cube]
  · rw [hv]; intro p hp; fin_cases hp <;> norm_num
  · simp [hv]
  · simp [hv]

/-- C9 witness: a cube shape with an empty property bag. -/
theorem cube_default_geometry_witness :
    (create_cube 2).verts.length = 8 :=
  (cube_default_geometry ctxFail shapeBare rfl).2.1
